import Mathlib

/-!
Shallow embedding of `pages/api/refreshYieldInstruction.ts`: the yield
computation rule, the metadata fetch wrapper, and the request handler.
External I/O (account fetches, HTTP metadata fetch, transaction execution)
is passed in as explicit result values; machine numbers are modelled as
`Nat`, and the one floating-point division in the handler (descaling the
stored multiplier) is modelled as exact division in `ℚ`.
-/

/-- One entry of the external metadata JSON attribute list
(`{trait_type, value}`). -/
structure Attribute where
  trait_type : String
  value : String
deriving DecidableEq, Repr

/-- The external metadata JSON document; the `attributes` list may be
absent (the source reads it with optional chaining). -/
structure MetadataJson where
  attributes : Option (List Attribute)
deriving DecidableEq, Repr

/-- On-chain metadata blob; only the external-JSON URI is relevant here. -/
structure MetadataData where
  uri : String
deriving DecidableEq, Repr

/-- The `NFT` type of the source: mint, on-chain metadata, external JSON. -/
structure NFT where
  mint : String
  onchainMetadata : MetadataData
  externalMetadata : MetadataJson
deriving DecidableEq, Repr

/-- Result of a successful on-chain + HTTP metadata fetch chain, before
`getNFTMetadata` wraps it into an `NFT`. -/
structure NFTRaw where
  onchainMetadata : MetadataData
  externalMetadata : MetadataJson
deriving DecidableEq, Repr

/-- The hardcoded list of seven legendary skins. -/
def legendarySkins : List String :=
  ["Abstract Colors", "Bat", "Crystal", "Demon", "Dragon", "Gold", "Lava"]

/-- Body of `computeExpectedYield` over the (possibly absent) attribute
list, mirroring the source statement by statement: base 2; +2 when the
first "Skin" attribute has a truthy value contained in `legendarySkins`;
the badge if/else ladder on the first "Badge" attribute; +5 when the first
"Vignette" attribute has value "Alpaca". -/
def yieldOfAttrs (attrs : Option (List Attribute)) : Nat :=
  let hayYield0 := 2
  let skin : Option Attribute :=
    attrs.bind fun atts => (atts.filter fun att => att.trait_type == "Skin").head?
  let hayYield1 :=
    match skin with
    | some s =>
        if s.value != "" && legendarySkins.contains s.value then hayYield0 + 2 else hayYield0
    | none => hayYield0
  let badge : Option (List Attribute) :=
    attrs.map fun atts => atts.filter fun att => att.trait_type == "Badge"
  let hayYield2 :=
    match badge with
    | some bs =>
        if 0 < bs.length then
          let v : Option String := bs.head?.map fun a => a.value
          if v = some "Bronze" then hayYield1 + 5
          else if v = some "Silver" then hayYield1 + 7
          else if v = some "Gold" then hayYield1 + 9
          else if v = some "Platinum" then hayYield1 + 11
          else if v = some "Diamond" then hayYield1 + 15
          else hayYield1
        else hayYield1
    | none => hayYield1
  let imposter : Option Attribute :=
    attrs.bind fun atts => (atts.filter fun att => att.trait_type == "Vignette").head?
  match imposter with
  | some imp => if imp.value == "Alpaca" then hayYield2 + 5 else hayYield2
  | none => hayYield2

/-- `computeExpectedYield`, with the metadata fetch already performed:
the source computes `nft?.externalMetadata.attributes` and runs the rule
body on it. -/
def computeExpectedYield (nft : Option NFT) : Nat :=
  yieldOfAttrs (nft.bind fun n => n.externalMetadata.attributes)

/-- `getNFTMetadata`: the whole fetch chain sits in a `try` whose `catch`
only logs, so a failed fetch returns `undefined` (here `none`), never an
exception. -/
def getNFTMetadata (mint : String) (fetched : Except String NFTRaw) : Option NFT :=
  match fetched with
  | Except.ok raw =>
      some { mint := mint
             onchainMetadata := raw.onchainMetadata
             externalMetadata := raw.externalMetadata }
  | Except.error _ => none

/-- Parsed reward-distributor account: only `multiplierDecimals` is read. -/
structure RewardDistributorParsed where
  multiplierDecimals : Nat
deriving DecidableEq, Repr

/-- Parsed reward-entry account: only the stored `multiplier` is read. -/
structure RewardEntryParsed where
  multiplier : Nat
deriving DecidableEq, Repr

/-- Instructions that the handler can add to the transaction it builds. -/
inductive Instr where
  | initRewardEntry : Instr
  | updateRewardEntry (multiplier : Nat) : Instr
deriving DecidableEq, Repr

/-- One `res.status(...).send(...)` call: HTTP status plus the JSON body
fields (`message`, optional `type`, optional `yieldRate`). -/
structure ApiResponse where
  status : Nat
  message : String
  rtype : Option String
  yieldRate : Option Nat
deriving DecidableEq, Repr

/-- The 405 body sent to non-POST requests (no `type` field). -/
def methodNotAllowed : ApiResponse :=
  { status := 405, message := "Only POST requests allowed", rtype := none, yieldRate := none }

/-- The generic 500 body produced by the catch block. -/
def errorResponse : ApiResponse :=
  { status := 500, message := "Yield refresh transaction could not be created"
    rtype := some "error", yieldRate := none }

/-- The 200 body of the already-set branch. -/
def ignoredResponse (y : Nat) : ApiResponse :=
  { status := 200, message := "Yield already set to " ++ toString y ++ " $HAY/day"
    rtype := some "ignored", yieldRate := some y }

/-- The 200 body of the successful-update branch. -/
def okResponse (y : Nat) : ApiResponse :=
  { status := 200, message := "Yield rate was successfully updated"
    rtype := some "ok", yieldRate := some y }

/-- A request: its HTTP method and the outcome of `new PublicKey(...)` on
each of the three body fields (a missing or malformed address makes the
constructor throw, modelled as `Except.error`). -/
structure Request where
  method : String
  mintField : Except String String
  userField : Except String String
  poolField : Except String String

/-- Results of every external interaction the handler performs, passed in
explicitly: admin-key deserialization, the `tryGetAccount` lookups for the
reward distributor and reward entry, the metadata fetch chain, the stake
entry resolution, and transaction execution. -/
structure Env where
  keyParse : Except String Unit
  rewardDistributor : Option RewardDistributorParsed
  nftFetch : Except String NFTRaw
  stakeEntryLookup : Except String String
  rewardEntry : Option RewardEntryParsed
  execTx : Except String Unit

/-- Observable outcome of one handler invocation: every response body sent,
the instruction list of the transaction passed to `executeTransaction` (if
any), and any exception escaping the handler uncaught. -/
structure HandlerResult where
  responses : List ApiResponse
  submitted : Option (List Instr)
  uncaught : Option String
deriving DecidableEq, Repr

/-- Tail of the handler once it builds and executes the transaction:
`withUpdateRewardEntry` appends the update instruction after any already
queued instruction, `executeTransaction` runs it, and the handler answers
200 ok on success; a submission failure falls to the catch block. -/
def submitTx (rs0 : List ApiResponse) (instrs : List Instr) (y m : Nat)
    (tx : Except String Unit) : HandlerResult :=
  let txInstrs := instrs ++ [Instr.updateRewardEntry m]
  match tx with
  | Except.ok _ =>
      { responses := rs0 ++ [okResponse y], submitted := some txInstrs, uncaught := none }
  | Except.error _ =>
      { responses := rs0 ++ [errorResponse], submitted := some txInstrs, uncaught := none }

/-- The default export handler. Control flow mirrors the source exactly:
the 405 response is sent without returning, so execution continues; the
three address parses happen before the `try`, so their exceptions escape
uncaught; everything after is inside the `try`, whose catch sends the
generic 500. The stored multiplier is descaled by `10 ^ multiplierDecimals`
(exact division in `ℚ`) and compared against the expected multiplier
`expectedYield * 10 ^ multiplierDecimals`. -/
def handler (req : Request) (env : Env) : HandlerResult :=
  let rs0 : List ApiResponse :=
    if req.method = "POST" then [] else [methodNotAllowed]
  match req.mintField with
  | Except.error e => { responses := rs0, submitted := none, uncaught := some e }
  | Except.ok mint =>
  match req.userField with
  | Except.error e => { responses := rs0, submitted := none, uncaught := some e }
  | Except.ok _userPubkey =>
  match req.poolField with
  | Except.error e => { responses := rs0, submitted := none, uncaught := some e }
  | Except.ok _stakePoolKey =>
  match env.keyParse with
  | Except.error _ =>
      { responses := rs0 ++ [errorResponse], submitted := none, uncaught := none }
  | Except.ok _ =>
  match env.rewardDistributor with
  | none =>
      { responses := rs0 ++ [errorResponse], submitted := none, uncaught := none }
  | some rd =>
    let expectedYield := computeExpectedYield (getNFTMetadata mint env.nftFetch)
    let expectedMultiplier := expectedYield * 10 ^ rd.multiplierDecimals
    match env.stakeEntryLookup with
    | Except.error _ =>
        { responses := rs0 ++ [errorResponse], submitted := none, uncaught := none }
    | Except.ok _stakeEntryId =>
    match env.rewardEntry with
    | none =>
        submitTx rs0 [Instr.initRewardEntry] expectedYield expectedMultiplier env.execTx
    | some re =>
        if (re.multiplier : ℚ) / (10 : ℚ) ^ rd.multiplierDecimals = (expectedMultiplier : ℚ) then
          { responses := rs0 ++ [ignoredResponse expectedYield]
            submitted := none, uncaught := none }
        else
          submitTx rs0 [] expectedYield expectedMultiplier env.execTx

/-- First attribute of a given trait type, as the source selects it
(`attributes.filter(att => att.trait_type === t)[0]`). -/
def firstOfTrait (t : String) (atts : List Attribute) : Option Attribute :=
  (atts.filter fun att => att.trait_type == t).head?

/-- The badge if/else ladder as a value table. -/
def badgeBonus (v : String) : Nat :=
  if v = "Bronze" then 5
  else if v = "Silver" then 7
  else if v = "Gold" then 9
  else if v = "Platinum" then 11
  else if v = "Diamond" then 15
  else 0

/-- Contribution of the skin rule to the yield. -/
def skinAdd (atts : List Attribute) : Nat :=
  match firstOfTrait "Skin" atts with
  | some s => if s.value != "" && legendarySkins.contains s.value then 2 else 0
  | none => 0

/-- Contribution of the badge rule to the yield. -/
def badgeAdd (atts : List Attribute) : Nat :=
  match firstOfTrait "Badge" atts with
  | some b => badgeBonus b.value
  | none => 0

/-- Contribution of the vignette rule to the yield. -/
def vignetteAdd (atts : List Attribute) : Nat :=
  match firstOfTrait "Vignette" atts with
  | some v => if v.value == "Alpaca" then 5 else 0
  | none => 0

/-- Spec-side restatement of the yield rule, written from the spec's
words for the refinement in C1: base rate 2, plus 2 when the first "Skin"
attribute's value is one of the seven legendary skins, plus the badge-tier
bonus of the first "Badge" attribute, plus 5 when the first "Vignette"
attribute's value is "Alpaca"; absent metadata or attribute list yields
the base rate only. -/
def specExpectedYield (nft : Option NFT) : Nat :=
  match nft.bind fun n => n.externalMetadata.attributes with
  | none => 2
  | some atts =>
      2 + (match firstOfTrait "Skin" atts with
           | some s => if legendarySkins.contains s.value then 2 else 0
           | none => 0)
        + (match firstOfTrait "Badge" atts with
           | some b => badgeBonus b.value
           | none => 0)
        + (match firstOfTrait "Vignette" atts with
           | some v => if v.value = "Alpaca" then 5 else 0
           | none => 0)

theorem yieldOfAttrs_none : yieldOfAttrs none = 2 := rfl

example :
    yieldOfAttrs (some [⟨"Skin", "Gold"⟩, ⟨"Badge", "Platinum"⟩]) = 15 := by decide

example : yieldOfAttrs (some []) = 2 := by decide

example : yieldOfAttrs (some [⟨"Vignette", "Alpaca"⟩]) = 7 := by decide

example :
    yieldOfAttrs (some [⟨"Skin", "Bat"⟩, ⟨"Badge", "Diamond"⟩, ⟨"Vignette", "Alpaca"⟩]) = 24 := by
  decide

example : yieldOfAttrs (some [⟨"Badge", "Wood"⟩]) = 2 := by decide

theorem badgeChain_eq (y : Nat) (v : String) :
    (if v = "Bronze" then y + 5
     else if v = "Silver" then y + 7
     else if v = "Gold" then y + 9
     else if v = "Platinum" then y + 11
     else if v = "Diamond" then y + 15
     else y) = y + badgeBonus v := by
  unfold badgeBonus
  split_ifs <;> omega

set_option maxHeartbeats 2000000 in
theorem yieldOfAttrs_some (atts : List Attribute) :
    yieldOfAttrs (some atts) = 2 + skinAdd atts + badgeAdd atts + vignetteAdd atts := by
  unfold yieldOfAttrs skinAdd badgeAdd vignetteAdd firstOfTrait badgeBonus
  dsimp only [Option.bind, Option.map]
  cases hs : (List.filter (fun att => att.trait_type == "Skin") atts).head? <;>
    cases hb : List.filter (fun att => att.trait_type == "Badge") atts <;>
      cases hv : (List.filter (fun att => att.trait_type == "Vignette") atts).head?
  all_goals try dsimp only [List.head?, Option.map, List.length]
  all_goals try simp only [Option.some.injEq]
  all_goals split_ifs <;> omega

theorem legendary_contains_ne_blank (v : String)
    (h : legendarySkins.contains v = true) : (v != "") = true := by
  have hv : v ∈ legendarySkins := by simpa using h
  simp only [legendarySkins, List.mem_cons, List.not_mem_nil, or_false] at hv
  rcases hv with rfl | rfl | rfl | rfl | rfl | rfl | rfl <;> decide

theorem skinAdd_eq_spec (atts : List Attribute) :
    skinAdd atts = (match firstOfTrait "Skin" atts with
      | some s => if legendarySkins.contains s.value then 2 else 0
      | none => 0) := by
  unfold skinAdd
  cases firstOfTrait "Skin" atts with
  | none => rfl
  | some s =>
    cases hc : legendarySkins.contains s.value with
    | false =>
      have hm : s.value ∉ legendarySkins := by simpa using hc
      simp [hm]
    | true =>
      have hm : s.value ∈ legendarySkins := by simpa using hc
      have hb : s.value ≠ "" := by simpa using legendary_contains_ne_blank s.value hc
      simp [hm, hb]

theorem vignetteAdd_eq_spec (atts : List Attribute) :
    vignetteAdd atts = (match firstOfTrait "Vignette" atts with
      | some v => if v.value = "Alpaca" then 5 else 0
      | none => 0) := by
  unfold vignetteAdd
  cases firstOfTrait "Vignette" atts with
  | none => rfl
  | some v => simp [beq_iff_eq]

theorem compute_eq_spec (nft : Option NFT) :
    computeExpectedYield nft = specExpectedYield nft := by
  unfold computeExpectedYield specExpectedYield
  cases nft.bind fun n => n.externalMetadata.attributes with
  | none => rfl
  | some atts =>
    rw [yieldOfAttrs_some, skinAdd_eq_spec, vignetteAdd_eq_spec]
    rfl

theorem skinAdd_le (atts : List Attribute) : skinAdd atts ≤ 2 := by
  unfold skinAdd
  cases firstOfTrait "Skin" atts
  all_goals dsimp only
  all_goals first
  | (split_ifs <;> omega)
  | omega

theorem badgeBonus_le (v : String) : badgeBonus v ≤ 15 := by
  unfold badgeBonus
  split_ifs <;> omega

theorem badgeAdd_le (atts : List Attribute) : badgeAdd atts ≤ 15 := by
  unfold badgeAdd
  cases firstOfTrait "Badge" atts
  all_goals dsimp only
  · omega
  · apply badgeBonus_le

theorem vignetteAdd_le (atts : List Attribute) : vignetteAdd atts ≤ 5 := by
  unfold vignetteAdd
  cases firstOfTrait "Vignette" atts
  all_goals dsimp only
  all_goals first
  | (split_ifs <;> omega)
  | omega

theorem filter_after_removeBadge (t : String) (ht : t ≠ "Badge") (atts : List Attribute) :
    List.filter (fun att => att.trait_type == t)
        (List.filter (fun att => !(att.trait_type == "Badge")) atts)
      = List.filter (fun att => att.trait_type == t) atts := by
  induction atts with
  | nil => rfl
  | cons a as ih =>
    cases ha : a.trait_type == "Badge" <;> cases hat : a.trait_type == t <;>
      simp_all [List.filter_cons]

theorem filter_badge_removeBadge (atts : List Attribute) :
    List.filter (fun att => att.trait_type == "Badge")
        (List.filter (fun att => !(att.trait_type == "Badge")) atts) = [] := by
  induction atts with
  | nil => rfl
  | cons a as ih =>
    cases ha : a.trait_type == "Badge" <;> simp_all [List.filter_cons]

/-- C1: for every NFT metadata input, `computeExpectedYield` returns 2
plus the additive skin, badge-tier and vignette bonuses (expressed by
`specExpectedYield`, the spec-side restatement of the rule); attributes
not present contribute nothing and absent metadata yields exactly 2; the
example `[{Skin: Gold}, {Badge: Platinum}]` yields 15 and the empty
attribute list yields 2. -/
theorem computeExpectedYield_matches_spec (nft : Option NFT) :
    computeExpectedYield nft = specExpectedYield nft
      ∧ computeExpectedYield
          (some ⟨"", ⟨""⟩, ⟨some [⟨"Skin", "Gold"⟩, ⟨"Badge", "Platinum"⟩]⟩⟩) = 15
      ∧ computeExpectedYield (some ⟨"", ⟨""⟩, ⟨some []⟩⟩) = 2
      ∧ computeExpectedYield none = 2 :=
  ⟨compute_eq_spec nft, by decide, by decide, rfl⟩

/-- C10: for every metadata input, including absent metadata, the computed
yield lies between 2 and 24 inclusive. -/
theorem computeExpectedYield_bounded (nft : Option NFT) :
    2 ≤ computeExpectedYield nft ∧ computeExpectedYield nft ≤ 24 := by
  unfold computeExpectedYield
  cases nft.bind fun n => n.externalMetadata.attributes with
  | none => rw [yieldOfAttrs_none]; omega
  | some atts =>
    rw [yieldOfAttrs_some]
    have h1 := skinAdd_le atts
    have h2 := badgeAdd_le atts
    have h3 := vignetteAdd_le atts
    omega

/-- C5: when the attribute list contains at least one "Badge" attribute,
exactly one tier bonus is applied, the one determined by the value of the
first "Badge" attribute (first match wins): the yield equals the yield of
the same list with every "Badge" attribute removed, plus that single
bonus; a value outside the five recognized tiers adds 0. -/
theorem badge_first_match_wins (atts : List Attribute) (b : Attribute)
    (hb : (List.filter (fun att => att.trait_type == "Badge") atts).head? = some b) :
    yieldOfAttrs (some atts)
        = yieldOfAttrs (some (List.filter (fun att => !(att.trait_type == "Badge")) atts))
            + badgeBonus b.value
      ∧ (b.value ∉ ["Bronze", "Silver", "Gold", "Platinum", "Diamond"]
          → badgeBonus b.value = 0) := by
  constructor
  · rw [yieldOfAttrs_some, yieldOfAttrs_some]
    have h1 : skinAdd (List.filter (fun att => !(att.trait_type == "Badge")) atts)
        = skinAdd atts := by
      unfold skinAdd firstOfTrait
      rw [filter_after_removeBadge "Skin" (by decide)]
    have h2 : vignetteAdd (List.filter (fun att => !(att.trait_type == "Badge")) atts)
        = vignetteAdd atts := by
      unfold vignetteAdd firstOfTrait
      rw [filter_after_removeBadge "Vignette" (by decide)]
    have h3 : badgeAdd (List.filter (fun att => !(att.trait_type == "Badge")) atts) = 0 := by
      unfold badgeAdd firstOfTrait
      rw [filter_badge_removeBadge]
      rfl
    have h4 : badgeAdd atts = badgeBonus b.value := by
      unfold badgeAdd firstOfTrait
      rw [hb]
    rw [h1, h2, h3, h4]
    omega
  · intro hv
    simp only [List.mem_cons, List.not_mem_nil, or_false] at hv
    push_neg at hv
    obtain ⟨n1, n2, n3, n4, n5⟩ := hv
    simp [badgeBonus, n1, n2, n3, n4, n5]

theorem badge_first_match_wins_witness :
    yieldOfAttrs (some [⟨"Badge", "Wood"⟩, ⟨"Badge", "Bronze"⟩])
        = yieldOfAttrs (some (List.filter (fun att => !(att.trait_type == "Badge"))
            [⟨"Badge", "Wood"⟩, ⟨"Badge", "Bronze"⟩]))
            + badgeBonus "Wood"
      ∧ ("Wood" ∉ ["Bronze", "Silver", "Gold", "Platinum", "Diamond"]
          → badgeBonus "Wood" = 0) :=
  badge_first_match_wins [⟨"Badge", "Wood"⟩, ⟨"Badge", "Bronze"⟩]
    ⟨"Badge", "Wood"⟩ (by decide)

/-- C7: `getNFTMetadata` never propagates a failure: any error in the
metadata fetch chain produces an absent result (`none`), and
`computeExpectedYield` still returns a value on it, namely the base
rate 2, so the request does not abort. -/
theorem getNFTMetadata_swallows_failures (mint e : String) :
    getNFTMetadata mint (Except.error e) = none
      ∧ computeExpectedYield (getNFTMetadata mint (Except.error e)) = 2 :=
  ⟨rfl, rfl⟩

/-- C2: when a reward entry exists and its stored on-chain multiplier,
descaled by the distributor's decimal precision, equals the computed
expected multiplier, the handler submits no transaction and responds with
a single 200 response of type ignored carrying the computed yield rate. -/
theorem ignored_when_multiplier_already_set
    (m u p se : String) (rd : RewardDistributorParsed) (re : RewardEntryParsed)
    (nf : Except String NFTRaw) (tx : Except String Unit)
    (heq : (re.multiplier : ℚ) / (10 : ℚ) ^ rd.multiplierDecimals
      = ((computeExpectedYield (getNFTMetadata m nf) * 10 ^ rd.multiplierDecimals : ℕ) : ℚ)) :
    handler ⟨"POST", Except.ok m, Except.ok u, Except.ok p⟩
        ⟨Except.ok (), some rd, nf, Except.ok se, some re, tx⟩
      = ⟨[ignoredResponse (computeExpectedYield (getNFTMetadata m nf))], none, none⟩ := by
  have hred : handler ⟨"POST", Except.ok m, Except.ok u, Except.ok p⟩
      ⟨Except.ok (), some rd, nf, Except.ok se, some re, tx⟩
    = if (re.multiplier : ℚ) / (10 : ℚ) ^ rd.multiplierDecimals
        = ((computeExpectedYield (getNFTMetadata m nf) * 10 ^ rd.multiplierDecimals : ℕ) : ℚ)
      then ⟨[ignoredResponse (computeExpectedYield (getNFTMetadata m nf))], none, none⟩
      else submitTx [] [] (computeExpectedYield (getNFTMetadata m nf))
        (computeExpectedYield (getNFTMetadata m nf) * 10 ^ rd.multiplierDecimals) tx := rfl
  rw [hred, if_pos heq]

theorem ignored_when_multiplier_already_set_witness :
    handler ⟨"POST", Except.ok "mintA", Except.ok "userA", Except.ok "poolA"⟩
        ⟨Except.ok (), some ⟨0⟩, Except.error "offline", Except.ok "stakeA", some ⟨2⟩,
          Except.ok ()⟩
      = ⟨[ignoredResponse 2], none, none⟩ :=
  ignored_when_multiplier_already_set "mintA" "userA" "poolA" "stakeA" ⟨0⟩ ⟨2⟩
    (Except.error "offline") (Except.ok ())
    (by norm_num [computeExpectedYield, getNFTMetadata, yieldOfAttrs])

/-- C3: the expected multiplier is computed as yield times
10 ^ multiplierDecimals, and whenever the stored multiplier differs from
the expected one, the handler submits an update transaction whose
multiplier argument equals round(yield times 10 ^ decimals) (the yield is
an integer, so the rounding is exact). -/
theorem update_multiplier_rounded
    (m u p se : String) (rd : RewardDistributorParsed) (re : RewardEntryParsed)
    (nf : Except String NFTRaw) (tx : Except String Unit)
    (hne : (re.multiplier : ℚ) / (10 : ℚ) ^ rd.multiplierDecimals
      ≠ ((computeExpectedYield (getNFTMetadata m nf) * 10 ^ rd.multiplierDecimals : ℕ) : ℚ)) :
    (handler ⟨"POST", Except.ok m, Except.ok u, Except.ok p⟩
        ⟨Except.ok (), some rd, nf, Except.ok se, some re, tx⟩).submitted
      = some [Instr.updateRewardEntry
          (computeExpectedYield (getNFTMetadata m nf) * 10 ^ rd.multiplierDecimals)]
      ∧ round ((computeExpectedYield (getNFTMetadata m nf) : ℚ)
            * (10 : ℚ) ^ rd.multiplierDecimals)
        = ((computeExpectedYield (getNFTMetadata m nf) * 10 ^ rd.multiplierDecimals : ℕ) : ℤ) := by
  have hred : handler ⟨"POST", Except.ok m, Except.ok u, Except.ok p⟩
      ⟨Except.ok (), some rd, nf, Except.ok se, some re, tx⟩
    = if (re.multiplier : ℚ) / (10 : ℚ) ^ rd.multiplierDecimals
        = ((computeExpectedYield (getNFTMetadata m nf) * 10 ^ rd.multiplierDecimals : ℕ) : ℚ)
      then ⟨[ignoredResponse (computeExpectedYield (getNFTMetadata m nf))], none, none⟩
      else submitTx [] [] (computeExpectedYield (getNFTMetadata m nf))
        (computeExpectedYield (getNFTMetadata m nf) * 10 ^ rd.multiplierDecimals) tx := rfl
  constructor
  · rw [hred, if_neg hne]
    cases tx <;> rfl
  · have hcast : ((computeExpectedYield (getNFTMetadata m nf) : ℚ))
          * (10 : ℚ) ^ rd.multiplierDecimals
        = ((computeExpectedYield (getNFTMetadata m nf) * 10 ^ rd.multiplierDecimals : ℕ) : ℚ) := by
      push_cast
      ring
    rw [hcast, round_natCast]

theorem update_multiplier_rounded_witness :
    (handler ⟨"POST", Except.ok "mintA", Except.ok "userA", Except.ok "poolA"⟩
        ⟨Except.ok (), some ⟨0⟩, Except.error "offline", Except.ok "stakeA", some ⟨5⟩,
          Except.ok ()⟩).submitted
      = some [Instr.updateRewardEntry 2]
      ∧ round (((2 : ℕ) : ℚ) * (10 : ℚ) ^ (0 : ℕ)) = (((2 * 10 ^ 0 : ℕ)) : ℤ) :=
  update_multiplier_rounded "mintA" "userA" "poolA" "stakeA" ⟨0⟩ ⟨5⟩
    (Except.error "offline") (Except.ok ())
    (by norm_num [computeExpectedYield, getNFTMetadata, yieldOfAttrs])

/-- C4: the claim says a non-POST request is answered 405 and processing
stops; in the source the 405 response is sent without returning, so the
handler keeps going, parses the body, builds the transaction and submits
it — at this concrete GET request the outcome holds both the 405 response
and a full update submission with a 200 response. -/
theorem non_post_response_sent_but_processing_continues :
    handler ⟨"GET", Except.ok "mintA", Except.ok "userA", Except.ok "poolA"⟩
        ⟨Except.ok (), some ⟨0⟩, Except.error "offline", Except.ok "stakeA", none,
          Except.ok ()⟩
      = ⟨[methodNotAllowed, okResponse 2],
          some [Instr.initRewardEntry, Instr.updateRewardEntry 2], none⟩ := by
  decide

/-- C6: when no reward entry exists for the (mint, pool, user)
combination, the submitted transaction consists of the initialization
instruction followed by the update instruction: the initialization
appears before the update. -/
theorem init_entry_before_update
    (m u p se : String) (rd : RewardDistributorParsed)
    (nf : Except String NFTRaw) (tx : Except String Unit) :
    (handler ⟨"POST", Except.ok m, Except.ok u, Except.ok p⟩
        ⟨Except.ok (), some rd, nf, Except.ok se, none, tx⟩).submitted
      = some [Instr.initRewardEntry, Instr.updateRewardEntry
          (computeExpectedYield (getNFTMetadata m nf) * 10 ^ rd.multiplierDecimals)] := by
  have hred : handler ⟨"POST", Except.ok m, Except.ok u, Except.ok p⟩
      ⟨Except.ok (), some rd, nf, Except.ok se, none, tx⟩
    = submitTx [] [Instr.initRewardEntry] (computeExpectedYield (getNFTMetadata m nf))
        (computeExpectedYield (getNFTMetadata m nf) * 10 ^ rd.multiplierDecimals) tx := rfl
  rw [hred]
  cases tx <;> rfl

/-- C8: when the reward-distributor account for the pool is absent, the
request terminates in failure: no transaction is constructed or
submitted, and the handler responds with the single generic 500 error
response. -/
theorem distributor_missing_terminal_failure (m u p : String)
    (nf : Except String NFTRaw) (sel : Except String String)
    (reo : Option RewardEntryParsed) (tx : Except String Unit) :
    handler ⟨"POST", Except.ok m, Except.ok u, Except.ok p⟩
        ⟨Except.ok (), none, nf, sel, reo, tx⟩
      = ⟨[errorResponse], none, none⟩ := rfl

/-- C9 counterexample: at this concrete request whose mint field fails to
parse, the handler sends no response at all (in particular no 500) and
the parse exception escapes uncaught, so the parse failure is not
collapsed into a generic 500 response. -/
theorem parse_error_not_collapsed_cex :
    handler ⟨"POST", Except.error "Invalid public key input", Except.ok "userA",
        Except.ok "poolA"⟩
        ⟨Except.ok (), none, Except.error "offline", Except.ok "stakeA", none, Except.ok ()⟩
      = ⟨[], none, some "Invalid public key input"⟩ := rfl

/-- C9 (amended): when mint, userPubkey or stakePoolKey fails to parse,
the handler fails with a parse error, but — the parsing happens before
the try block — that exception is NOT caught: it escapes the handler
uncaught, no transaction is submitted, and the handler itself sends no
500 response. -/
theorem parse_error_escapes_uncaught (req : Request) (env : Env)
    (h : (∃ e, req.mintField = Except.error e) ∨ (∃ e, req.userField = Except.error e)
      ∨ (∃ e, req.poolField = Except.error e)) :
    (handler req env).submitted = none
      ∧ (handler req env).uncaught.isSome = true
      ∧ (handler req env).responses.all (fun r => r.status != 500) = true := by
  obtain ⟨method, mf, uf, pf⟩ := req
  cases mf with
  | error e =>
    refine ⟨rfl, rfl, ?_⟩
    show (if method = "POST" then ([] : List ApiResponse)
      else [methodNotAllowed]).all (fun r => r.status != 500) = true
    split <;> decide
  | ok m =>
    cases uf with
    | error e =>
      refine ⟨rfl, rfl, ?_⟩
      show (if method = "POST" then ([] : List ApiResponse)
        else [methodNotAllowed]).all (fun r => r.status != 500) = true
      split <;> decide
    | ok uu =>
      cases pf with
      | error e =>
        refine ⟨rfl, rfl, ?_⟩
        show (if method = "POST" then ([] : List ApiResponse)
          else [methodNotAllowed]).all (fun r => r.status != 500) = true
        split <;> decide
      | ok pp =>
        rcases h with ⟨e, he⟩ | ⟨e, he⟩ | ⟨e, he⟩ <;> simp at he

theorem parse_error_escapes_uncaught_witness :
    (handler ⟨"POST", Except.error "Invalid public key input", Except.ok "userA",
        Except.ok "poolA"⟩
        ⟨Except.ok (), none, Except.error "offline", Except.ok "stakeA", none,
          Except.ok ()⟩).submitted = none
      ∧ (handler ⟨"POST", Except.error "Invalid public key input", Except.ok "userA",
          Except.ok "poolA"⟩
          ⟨Except.ok (), none, Except.error "offline", Except.ok "stakeA", none,
            Except.ok ()⟩).uncaught.isSome = true
      ∧ (handler ⟨"POST", Except.error "Invalid public key input", Except.ok "userA",
          Except.ok "poolA"⟩
          ⟨Except.ok (), none, Except.error "offline", Except.ok "stakeA", none,
            Except.ok ()⟩).responses.all (fun r => r.status != 500) = true :=
  parse_error_escapes_uncaught _ _ (Or.inl ⟨"Invalid public key input", rfl⟩)
